import Mathlib

/-!
# Verification of the netcup-control-restapi state-change detection core

Shallow embedding of the throttle-history ledger, the transition detection
logic and the reconciliation cycle of `netcup_monitor.py`, together with the
traffic-throttle probe of `netcup_api.py`.

Modeling conventions:
* Python `datetime.now().timestamp()` values are modelled as `Nat` seconds
  (time is monotone in every scenario considered; `int(a - b)` on such
  values coincides with truncated `Nat` subtraction).
* Python dictionaries (`cached_data`, `throttle_history`, `new_data`,
  per-account `server_data`) are modelled as association lists
  `List (String × α)` with first-match lookup and replace-or-append
  insertion, which reproduces dict key semantics.
* Python truthiness of `history["last_throttle_time"]` (both `None` and a
  zero timestamp are falsy) is modelled by `truthyTime`.
* Network / downstream side effects are recorded in the state (call log,
  notification log, save counter); a downstream call that raises is caught
  by the source's `try/except`, so it is recorded with a `Bool` outcome and
  has no other effect.
-/

namespace Netcup

/-- Kind of a history event recorded in the ledger
(`"event": "throttled"` / `"unthrottled"` in `update_throttle_history`). -/
inductive EventKind where
  | throttled
  | unthrottled
deriving DecidableEq, Repr

/-- One element of `history["history"]` in `netcup_monitor.py`:
`{"event": ..., "timestamp": ..., ["duration_seconds": ...]}`
(the human-readable `"datetime"` string is a formatting of `timestamp`
and is not modelled separately). -/
structure ThrottleEvent where
  event : EventKind
  timestamp : Nat
  duration_seconds : Option Nat
deriving DecidableEq, Repr

/-- One per-resource ledger entry of `self.throttle_history`
(`netcup_monitor.py` lines 136-144). -/
structure LedgerEntry where
  server_name : String
  current_throttled : Bool
  last_throttle_time : Option Nat
  last_unthrottle_time : Option Nat
  throttle_count : Nat
  total_throttled_seconds : Nat
  history : List ThrottleEvent
deriving DecidableEq, Repr

/-- Python truthiness of a stored timestamp: `None` and `0` are falsy
(`if history["last_throttle_time"]:`). -/
def truthyTime : Option Nat → Bool
  | none => false
  | some t => t != 0

/-- The fresh entry created for a previously unseen resource
(`netcup_monitor.py` lines 136-144). -/
def initEntry (server_name : String) (is_throttled : Bool) : LedgerEntry :=
  { server_name := server_name
    current_throttled := is_throttled
    last_throttle_time := none
    last_unthrottle_time := none
    throttle_count := 0
    total_throttled_seconds := 0
    history := [] }

/-- `netcup_monitor.py` lines 150-152: the display name is refreshed when a
non-empty new name differs from the stored one. -/
def nameFix (h : LedgerEntry) (server_name : String) : LedgerEntry :=
  if server_name ≠ "" ∧ h.server_name ≠ server_name then
    { h with server_name := server_name }
  else h

/-- `netcup_monitor.py` lines 225-227: after appending, only the most recent
100 events are kept (`history["history"][-100:]`, i.e. the list's tail). -/
def capList (l : List ThrottleEvent) : List ThrottleEvent :=
  if 100 < l.length then l.drop (l.length - 100) else l

/-- A notification pushed through the Telegram notifier, identified by the
resource and the kind of transition it reports. -/
structure Notification where
  ip : String
  kind : EventKind
deriving DecidableEq, Repr

/-- The ledger mutation performed inside the `old_throttled != is_throttled`
branch of `update_throttle_history` (`netcup_monitor.py` lines 158-221),
before `current_throttled` is overwritten: the throttled branch stamps
`last_throttle_time`, bumps `throttle_count` and appends a `throttled` event
(always notifying); the unthrottled branch stamps `last_unthrottle_time` and
— only when `last_throttle_time` is truthy — accumulates the closed period
into `total_throttled_seconds`, appends an `unthrottled` event carrying the
duration and notifies. -/
def applyTransition (h : LedgerEntry) (is_throttled : Bool) (now : Nat) :
    LedgerEntry × Option EventKind :=
  if is_throttled then
    ({ h with
        last_throttle_time := some now
        throttle_count := h.throttle_count + 1
        history := h.history ++ [⟨.throttled, now, none⟩] },
      some .throttled)
  else
    let h1 := { h with last_unthrottle_time := some now }
    if truthyTime h1.last_throttle_time then
      let dur := now - h1.last_throttle_time.getD 0
      ({ h1 with
          total_throttled_seconds := h1.total_throttled_seconds + dur
          history := h1.history ++ [⟨.unthrottled, now, some dur⟩] },
        some .unthrottled)
    else (h1, none)

/-- Result of one `update_throttle_history` call: the new entry for the
resource, whether `save_throttle_history` was invoked (line 229, inside the
state-change branch), and the notification emitted, if any. -/
structure UpdateResult where
  entry : LedgerEntry
  saved : Bool
  note : Option Notification
deriving Repr

/-- `update_throttle_history` (`netcup_monitor.py` lines 130-229) for one
resource: create the entry if absent (lines 135-145), refresh the display
name (150-152); when the recorded flag differs from the observed one apply
the transition mutation (158-221), overwrite `current_throttled` (223),
cap the event list (226-227) and save the ledger (229); otherwise leave the
entry alone and do not save. -/
def update_throttle_history (existing : Option LedgerEntry) (ip : String)
    (server_name : String) (is_throttled : Bool) (now : Nat) : UpdateResult :=
  let history := existing.getD (initEntry server_name is_throttled)
  let old_throttled := history.current_throttled
  let history := nameFix history server_name
  if old_throttled ≠ is_throttled then
    let he := applyTransition history is_throttled now
    let h := { he.1 with current_throttled := is_throttled }
    let h := { h with history := capList h.history }
    ⟨h, true, he.2.map (fun k => ⟨ip, k⟩)⟩
  else
    ⟨history, false, none⟩

/-! ## Association lists: the embedding of Python dictionaries -/

/-- Dictionary lookup on an association list (first matching key). -/
def lookupA {α : Type} : List (String × α) → String → Option α
  | [], _ => none
  | kv :: rest, k => if kv.1 = k then some kv.2 else lookupA rest k

/-- Dictionary assignment `m[k] = v`: replace the value of an existing key in
place, otherwise append the new pair (Python dict insertion order). -/
def insertA {α : Type} : List (String × α) → String → α → List (String × α)
  | [], k, v => [(k, v)]
  | kv :: rest, k, v =>
      if kv.1 = k then (k, v) :: rest else kv :: insertA rest k v

/-- The keys of an association list are pairwise distinct (always true for a
list that embeds an actual Python dict). -/
def keysNodup {α : Type} (m : List (String × α)) : Prop :=
  (m.map Prod.fst).Nodup

instance {α : Type} (m : List (String × α)) : Decidable (keysNodup m) := by
  unfold keysNodup; infer_instance

/-! ## The netcup API probe (`netcup_api.py`) -/

/-- One entry of `serverLiveInfo['interfaces']` as read by
`check_traffic_throttled` (`netcup_api.py` lines 230-245). -/
structure NetInterface where
  mac : String
  rxMonthlyInMiB : Nat
  txMonthlyInMiB : Nat
  trafficThrottled : Bool
deriving DecidableEq, Repr

/-- The slice of a successful `GET /servers/{id}?loadServerLiveInfo=true`
response that `check_traffic_throttled` consumes: the interface list of
`serverLiveInfo` (missing `serverLiveInfo`/`interfaces` keys default to an
empty list via `.get(..., [])`). -/
structure ServerLiveDetails where
  interfaces : List NetInterface
deriving DecidableEq, Repr

/-- One entry of `traffic_info['interfaces']` built by
`check_traffic_throttled`. -/
structure InterfaceView where
  mac : String
  rx_mib : Nat
  tx_mib : Nat
  throttled : Bool
deriving DecidableEq, Repr

/-- The `traffic_info` dict returned by `check_traffic_throttled`
(`total_gb`, a display-rounded float of `(rx+tx)/1024`, is not modelled). -/
structure TrafficInfo where
  total_rx_mib : Nat
  total_tx_mib : Nat
  interfaces : List InterfaceView
deriving DecidableEq, Repr

/-- Loop body of `check_traffic_throttled` (`netcup_api.py` lines 230-245):
accumulate the monthly counters, OR-in the interface's throttle flag, and
record the per-interface view. -/
def trafficStep (acc : Bool × TrafficInfo) (i : NetInterface) : Bool × TrafficInfo :=
  let rx := i.rxMonthlyInMiB
  let tx := i.txMonthlyInMiB
  let ti := { acc.2 with
    total_rx_mib := acc.2.total_rx_mib + rx
    total_tx_mib := acc.2.total_tx_mib + tx
    interfaces := acc.2.interfaces ++ [⟨i.mac, rx, tx, i.trafficThrottled⟩] }
  (acc.1 || i.trafficThrottled, ti)

/-- `check_traffic_throttled` (`netcup_api.py` lines 202-257): when the
details request fails the function returns `None, {}` (the empty dict is
modelled as `none`); otherwise it folds over the interfaces starting from
`is_throttled = False` and empty counters. -/
def check_traffic_throttled (details : Option ServerLiveDetails) :
    Option Bool × Option TrafficInfo :=
  match details with
  | none => (none, none)
  | some d =>
    let r := d.interfaces.foldl trafficStep (false, ⟨0, 0, []⟩)
    (some r.1, some r.2)

/-- `get_server_ipv4` (`netcup_api.py` lines 177-200): `none` when the
details request fails or the address list is empty, otherwise the first
address. The input models `ipv4Addresses` of the (separate, live-info-free)
details request. -/
def get_server_ipv4 (ipDetails : Option (List String)) : Option String :=
  match ipDetails with
  | none => none
  | some addrs => addrs.head?

/-- The slice of the details response that `get_server_status` consumes:
`serverLiveInfo.state`, `none` when the key is absent. -/
structure StatusDetails where
  state : Option String
deriving DecidableEq, Repr

/-- `get_server_status` (`netcup_api.py` lines 169-175): `none` when the
details request fails, otherwise `serverLiveInfo.get('state', 'UNKNOWN')`. -/
def get_server_status (statusDetails : Option StatusDetails) : Option String :=
  match statusDetails with
  | none => none
  | some d => some (d.state.getD "UNKNOWN")

/-! ## The reconciliation driver (`netcup_monitor.py`) -/

/-- The responses the monitor receives for one server of an account's server
list inside `get_server_info_from_account` (`netcup_monitor.py` 439-484).
`server_id` is `server.get('vserverId') or server.get('id')` with Python
falsiness already applied (`none` when both are missing or empty), and
`server_name` is the `hostname or name or server_id` chain. The three
`Option` fields model the three separate API requests the loop performs. -/
structure ServerEntry where
  server_id : Option String
  server_name : String
  ipDetails : Option (List String)
  statusDetails : Option StatusDetails
  liveDetails : Option ServerLiveDetails
deriving DecidableEq, Repr

/-- Python `status or "UNKNOWN"` on the result of `get_server_status`
(both `None` and the empty string fall back). -/
def pyOrUnknown : Option String → String
  | none => "UNKNOWN"
  | some s => if s = "" then "UNKNOWN" else s

/-- One `cached_data` value built at `netcup_monitor.py` lines 464-475,
keyed by the server's IPv4 address (the float TiB conversions of the MiB
counters and the formatted `last_check_time` are display-only and are kept
as the raw MiB numbers / omitted). -/
structure Payload where
  trafficThrottled : Bool
  status : String
  server_name : String
  server_id : String
  rx_mib : Nat
  tx_mib : Nat
deriving DecidableEq, Repr

/-- Per-server loop body of `get_server_info_from_account`
(`netcup_monitor.py` lines 439-484): skip when the server id is falsy, the
IPv4 address is unobtainable, or `check_traffic_throttled` returned `None`;
a missing operational status is defaulted to `"UNKNOWN"`, not skipped. -/
def serverStep (sd : List (String × Payload)) (s : ServerEntry) :
    List (String × Payload) :=
  match s.server_id with
  | none => sd
  | some sid =>
    match get_server_ipv4 s.ipDetails with
    | none => sd
    | some ipv4 =>
      let status := get_server_status s.statusDetails
      let r := check_traffic_throttled s.liveDetails
      match r.1 with
      | none => sd
      | some is_throttled =>
        insertA sd ipv4
          { trafficThrottled := is_throttled
            status := pyOrUnknown status
            server_name := s.server_name
            server_id := sid
            rx_mib := (r.2.map TrafficInfo.total_rx_mib).getD 0
            tx_mib := (r.2.map TrafficInfo.total_tx_mib).getD 0 }

/-- `get_server_info_from_account` (`netcup_monitor.py` lines 420-489):
fold the per-server step over the account's server list, starting from an
empty `server_data` dict. -/
def get_server_info_from_account (servers : List ServerEntry) :
    List (String × Payload) :=
  servers.foldl serverStep []

/-- A downstream automation call issued by the driver
(`enable_downloader` / `disable_downloader`). -/
inductive DCall where
  | enable (ip : String)
  | disable (ip : String)
deriving DecidableEq, Repr

/-- The monitor's mutable state as seen by one poll cycle: the read-side
cache `self.cached_data`, the ledger `self.throttle_history`, plus logs of
the effects a cycle performs — how often `save_throttle_history` ran, which
notifications were pushed, and which downstream calls were made together
with their outcome (`false` = the call raised and was swallowed by the
driver's `try/except`). -/
structure MonitorState where
  cached : List (String × Payload)
  ledger : List (String × LedgerEntry)
  saves : Nat
  notes : List Notification
  calls : List (DCall × Bool)
deriving Repr

/-- Per-resource body of the comparison loop in `update_cached_data`
(`netcup_monitor.py` lines 565-598): the decision is gated on the *cache's*
previous flag — absent means "first seen" (history update plus a sync
enable/disable), a differing flag means "state change" (history update plus
the transition's enable/disable), an equal flag does nothing. `ok` is the
outcome of the downstream call; its failure is caught and only logged. -/
def process_resource (st : MonitorState) (now : Nat) (ok : Bool)
    (ip : String) (p : Payload) : MonitorState :=
  let new_throttled := p.trafficThrottled
  let old_throttled := (lookupA st.cached ip).map Payload.trafficThrottled
  match old_throttled with
  | none =>
    let r := update_throttle_history (lookupA st.ledger ip) ip p.server_name
      new_throttled now
    { st with
        ledger := insertA st.ledger ip r.entry
        saves := st.saves + (if r.saved then 1 else 0)
        notes := st.notes ++ r.note.toList
        calls := st.calls ++
          [((if new_throttled = false then .enable ip else .disable ip), ok)] }
  | some old =>
    if old ≠ new_throttled then
      let r := update_throttle_history (lookupA st.ledger ip) ip p.server_name
        new_throttled now
      { st with
          ledger := insertA st.ledger ip r.entry
          saves := st.saves + (if r.saved then 1 else 0)
          notes := st.notes ++ r.note.toList
          calls := st.calls ++
            [((if old = true ∧ new_throttled = false then .enable ip
               else .disable ip), ok)] }
    else st

/-- One poll cycle's comparison-and-replace phase, `update_cached_data`
(`netcup_monitor.py` lines 552-604): given the merged `new_data` observation
set, run the per-resource comparison loop against the (fixed) old cache and
the (evolving) ledger, then replace the whole cache with `new_data`.
`oc ip` is the outcome of the downstream call for `ip`, if one is made. -/
def update_cached_data (st : MonitorState) (new_data : List (String × Payload))
    (now : Nat) (oc : String → Bool) : MonitorState :=
  let st' := new_data.foldl (fun s kp => process_resource s now (oc kp.1) kp.1 kp.2) st
  { st' with cached := new_data }

/-- The merge of all accounts' server data into one `new_data` observation
set (`netcup_monitor.py` lines 555-562): accounts with incomplete
credentials are skipped, the rest are merged with `dict.update`
(last write wins per key). -/
def collect_new_data (accounts : List (Bool × List ServerEntry)) :
    List (String × Payload) :=
  accounts.foldl
    (fun nd a =>
      if a.1 then
        (get_server_info_from_account a.2).foldl (fun m kp => insertA m kp.1 kp.2) nd
      else nd)
    []

/-! ## The availability calculator (`netcup_monitor.py` lines 245-284) -/

/-- The statistics dict returned by `calculate_availability`; durations are
kept as raw seconds (the source formats them into display strings with
`format_hours` / `strftime`, which is injective display-only formatting). -/
structure AvailabilityView where
  throttle_count : Nat
  total_throttled_time : Nat
  last_throttle_time : Option Nat
  last_unthrottle_time : Option Nat
  current_throttle_duration : Nat
  history : List ThrottleEvent
deriving DecidableEq, Repr

/-- `calculate_availability` (`netcup_monitor.py` lines 245-284): zeros for
an unknown resource; otherwise the current open throttle duration is
`int(now - last_throttle_time)` but only when both `current_throttled` and
`last_throttle_time` are truthy, the total is `total_throttled_seconds`
as stored (closed periods only), and the remaining fields are copied. -/
def calculate_availability (entry : Option LedgerEntry) (now : Nat) :
    AvailabilityView :=
  match entry with
  | none => ⟨0, 0, none, none, 0, []⟩
  | some h =>
    let current_throttle_duration :=
      if h.current_throttled && truthyTime h.last_throttle_time then
        now - h.last_throttle_time.getD 0
      else 0
    ⟨h.throttle_count, h.total_throttled_seconds, h.last_throttle_time,
      h.last_unthrottle_time, current_throttle_duration, h.history⟩

/-! ## The ledger store's save operation (`netcup_monitor.py` lines 121-128) -/

/-- The sequence of contents a concurrent reader of the history file can
observe while `save_throttle_history` runs: `open(self.history_file, 'w')`
truncates the file at its final path in place, then `json.dump` writes the
serialized ledger sequentially, so the observable states are the previous
content, then every prefix of the new content (starting with the empty
file) in order. -/
def save_file_states (old new : String) : List String :=
  old :: (List.range (new.length + 1)).map (fun k => new.take k)

/-! ## The transition detector as specified -/

/-- Decision of the spec's Transition Detector (spec §4.2). -/
inductive Classification where
  | firstObservation
  | transition (fromThrottled toThrottled : Bool)
  | noChange
deriving DecidableEq, Repr

/-- The spec's pure Transition Detector decision function, stated over the
ledger entry (or its absence) and the freshly observed flag; used to compare
the code's behaviour against the specified classification. -/
def classify (entry : Option LedgerEntry) (observed : Bool) : Classification :=
  match entry with
  | none => .firstObservation
  | some e =>
    if e.current_throttled ≠ observed then .transition e.current_throttled observed
    else .noChange

/-! ## Derived notions used by the statements -/

/-- Repeated processing of one resource's observations through
`update_throttle_history`: fold the per-observation call over a sequence of
`(observed flag, timestamp)` pairs. -/
def runEntry (ip name : String) (start : Option LedgerEntry)
    (obs : List (Bool × Nat)) : Option LedgerEntry :=
  obs.foldl (fun acc ob => some (update_throttle_history acc ip name ob.1 ob.2).entry) start

/-- Whether processing the given observation from the given pre-cycle state
triggers a ledger save: the cache gate must open (resource absent from the
cache or cached flag differing) and the ledger's recorded flag must differ
from the observed flag (a created entry records the observed flag at once
and does not save). -/
def save_pred (st : MonitorState) (kp : String × Payload) : Bool :=
  (match lookupA st.cached kp.1 with
   | none => true
   | some c => c.trafficThrottled != kp.2.trafficThrottled) &&
  (match lookupA st.ledger kp.1 with
   | none => false
   | some e => e.current_throttled != kp.2.trafficThrottled)

/-- The reachable-state invariant of the monitor: every cached resource has
a ledger entry whose recorded flag equals the cached flag. It holds at
startup (the cache starts empty) and is preserved by every poll cycle. -/
def CacheLedgerAgree (st : MonitorState) : Prop :=
  ∀ ip p, lookupA st.cached ip = some p →
    ∃ e, lookupA st.ledger ip = some e ∧ e.current_throttled = p.trafficThrottled

/-- The claimed contract of the availability calculator's current-duration
field: `now - last_throttle_time` whenever the entry is currently
throttled (which presupposes a recorded `last_throttle_time`), and `0`
otherwise. -/
def availabilityDurationSpec (e : LedgerEntry) (now : Nat) : Prop :=
  if e.current_throttled then
    ∃ t, e.last_throttle_time = some t ∧
      (calculate_availability (some e) now).current_throttle_duration = now - t
  else (calculate_availability (some e) now).current_throttle_duration = 0

/-! ## Association list lemmas -/

theorem lookupA_insertA_self {α : Type} (m : List (String × α)) (k : String) (v : α) :
    lookupA (insertA m k v) k = some v := by
  induction m with
  | nil => simp [insertA, lookupA]
  | cons kv rest ih =>
    by_cases h : kv.1 = k
    · simp [insertA, h, lookupA]
    · simp [insertA, h, lookupA, ih]

theorem lookupA_insertA_ne {α : Type} (m : List (String × α)) (k k' : String) (v : α)
    (h : k ≠ k') : lookupA (insertA m k v) k' = lookupA m k' := by
  induction m with
  | nil => simp [insertA, lookupA, h]
  | cons kv rest ih =>
    obtain ⟨a, w⟩ := kv
    by_cases hk : a = k
    · subst hk
      simp [insertA, lookupA, h]
    · simp only [insertA, if_neg hk, lookupA]
      by_cases hk' : a = k'
      · simp [hk']
      · simp [hk', ih]

theorem lookupA_of_mem_nodup {α : Type} {m : List (String × α)} {k : String} {v : α}
    (hm : (k, v) ∈ m) (hn : keysNodup m) : lookupA m k = some v := by
  induction m with
  | nil => cases hm
  | cons kv rest ih =>
    rcases List.mem_cons.mp hm with h | h
    · simp [lookupA, ← h]
    · have hk : kv.1 ≠ k := by
        intro he
        have : k ∈ rest.map Prod.fst := List.mem_map_of_mem Prod.fst h
        have hn' := (List.nodup_cons.mp hn).1
        exact hn' (he ▸ this)
      simpa [lookupA, hk] using ih h (List.nodup_cons.mp hn).2

theorem mem_of_lookupA {α : Type} {m : List (String × α)} {k : String} {v : α}
    (h : lookupA m k = some v) : (k, v) ∈ m := by
  induction m with
  | nil => simp [lookupA] at h
  | cons kv rest ih =>
    obtain ⟨a, w⟩ := kv
    by_cases hk : a = k
    · simp only [lookupA, if_pos hk, Option.some.injEq] at h
      subst hk
      subst h
      exact List.mem_cons_self _ _
    · simp only [lookupA, if_neg hk] at h
      exact List.mem_cons_of_mem _ (ih h)

theorem lookupA_none_of_not_mem_keys {α : Type} {m : List (String × α)} {k : String}
    (h : k ∉ m.map Prod.fst) : lookupA m k = none := by
  induction m with
  | nil => rfl
  | cons kv rest ih =>
    simp only [List.map_cons, List.mem_cons, not_or] at h
    simp [lookupA, Ne.symm h.1, ih h.2]

/-! ## Characterization of `update_throttle_history` -/

@[simp] theorem nameFix_current_throttled (h : LedgerEntry) (n : String) :
    (nameFix h n).current_throttled = h.current_throttled := by
  unfold nameFix; split <;> rfl

@[simp] theorem nameFix_last_throttle_time (h : LedgerEntry) (n : String) :
    (nameFix h n).last_throttle_time = h.last_throttle_time := by
  unfold nameFix; split <;> rfl

@[simp] theorem nameFix_last_unthrottle_time (h : LedgerEntry) (n : String) :
    (nameFix h n).last_unthrottle_time = h.last_unthrottle_time := by
  unfold nameFix; split <;> rfl

@[simp] theorem nameFix_throttle_count (h : LedgerEntry) (n : String) :
    (nameFix h n).throttle_count = h.throttle_count := by
  unfold nameFix; split <;> rfl

@[simp] theorem nameFix_total (h : LedgerEntry) (n : String) :
    (nameFix h n).total_throttled_seconds = h.total_throttled_seconds := by
  unfold nameFix; split <;> rfl

@[simp] theorem nameFix_history (h : LedgerEntry) (n : String) :
    (nameFix h n).history = h.history := by
  unfold nameFix; split <;> rfl

/-- A first observation creates the baseline entry, saves nothing and
notifies nothing (the creation sets `current_throttled` to the observed
value, so the state-change branch is not entered). -/
theorem update_first (ip name : String) (b : Bool) (now : Nat) :
    update_throttle_history none ip name b now = ⟨initEntry name b, false, none⟩ := by
  cases b <;> simp [update_throttle_history, nameFix, initEntry]

/-- An observation equal to the recorded flag only refreshes the display
name: no event, no save, no notification. -/
theorem update_noChange (e : LedgerEntry) (ip name : String) (b : Bool) (now : Nat)
    (h : e.current_throttled = b) :
    update_throttle_history (some e) ip name b now = ⟨nameFix e name, false, none⟩ := by
  obtain ⟨sn, ct, a1, a2, a3, a4, a5⟩ := e
  simp only at h
  subst h
  cases ct <;> rfl

/-- A `false → true` transition: stamp `last_throttle_time`, bump the count,
append a `throttled` event, flip the flag, cap, save and notify. -/
theorem update_onset (e : LedgerEntry) (ip name : String) (now : Nat)
    (h : e.current_throttled = false) :
    update_throttle_history (some e) ip name true now =
      ⟨{ nameFix e name with
          current_throttled := true
          last_throttle_time := some now
          throttle_count := e.throttle_count + 1
          history := capList (e.history ++ [⟨.throttled, now, none⟩]) },
        true, some ⟨ip, .throttled⟩⟩ := by
  obtain ⟨sn, ct, a1, a2, a3, a4, a5⟩ := e
  simp only at h
  subst h
  simp [update_throttle_history, applyTransition]

/-- A `true → false` transition with a truthy `last_throttle_time`: stamp
`last_unthrottle_time`, close the period into `total_throttled_seconds`,
append an `unthrottled` event with the closed duration, flip the flag, cap,
save and notify. -/
theorem update_unthrottle_truthy (e : LedgerEntry) (ip name : String) (now : Nat)
    (h : e.current_throttled = true) (ht : truthyTime e.last_throttle_time = true) :
    update_throttle_history (some e) ip name false now =
      ⟨{ nameFix e name with
          current_throttled := false
          last_unthrottle_time := some now
          total_throttled_seconds :=
            e.total_throttled_seconds + (now - e.last_throttle_time.getD 0)
          history := capList (e.history ++
            [⟨.unthrottled, now, some (now - e.last_throttle_time.getD 0)⟩]) },
        true, some ⟨ip, .unthrottled⟩⟩ := by
  obtain ⟨sn, ct, a1, a2, a3, a4, a5⟩ := e
  simp only at h ht
  subst h
  simp [update_throttle_history, applyTransition, ht]

/-- A `true → false` transition with `last_throttle_time` absent (or zero,
Python falsiness): only `last_unthrottle_time` and the flag change — no
event is appended, no duration is accumulated, no notification is sent;
the ledger is still saved. -/
theorem update_unthrottle_falsy (e : LedgerEntry) (ip name : String) (now : Nat)
    (h : e.current_throttled = true) (ht : truthyTime e.last_throttle_time = false) :
    update_throttle_history (some e) ip name false now =
      ⟨{ nameFix e name with
          current_throttled := false
          last_unthrottle_time := some now
          history := capList e.history },
        true, none⟩ := by
  obtain ⟨sn, ct, a1, a2, a3, a4, a5⟩ := e
  simp only at h ht
  subst h
  simp [update_throttle_history, applyTransition, ht]

/-- After any `update_throttle_history` call the recorded flag equals the
observed flag. -/
theorem update_flag (existing : Option LedgerEntry) (ip name : String) (b : Bool)
    (now : Nat) :
    (update_throttle_history existing ip name b now).entry.current_throttled = b := by
  match existing with
  | none => simp [update_first, initEntry]
  | some e =>
    by_cases hc : e.current_throttled = b
    · simp [update_noChange e ip name b now hc, hc]
    · cases b with
      | true =>
        have hf : e.current_throttled = false := by
          cases hcur : e.current_throttled <;> simp_all
        simp [update_onset e ip name now hf]
      | false =>
        have hf : e.current_throttled = true := by
          cases hcur : e.current_throttled <;> simp_all
        cases ht : truthyTime e.last_throttle_time
        · simp [update_unthrottle_falsy e ip name now hf ht]
        · simp [update_unthrottle_truthy e ip name now hf ht]

/-- `save_throttle_history` runs during an `update_throttle_history` call
exactly when an entry already existed and its recorded flag differs from
the observed one (creations record the observed flag immediately and save
nothing). -/
theorem update_saved (existing : Option LedgerEntry) (ip name : String) (b : Bool)
    (now : Nat) :
    (update_throttle_history existing ip name b now).saved =
      (match existing with
       | none => false
       | some e => e.current_throttled != b) := by
  match existing with
  | none => simp [update_first]
  | some e =>
    by_cases hc : e.current_throttled = b
    · simp [update_noChange e ip name b now hc, hc]
    · cases b with
      | true =>
        have hf : e.current_throttled = false := by
          cases hcur : e.current_throttled <;> simp_all
        simp [update_onset e ip name now hf, hf]
      | false =>
        have hf : e.current_throttled = true := by
          cases hcur : e.current_throttled <;> simp_all
        cases ht : truthyTime e.last_throttle_time
        · simp [update_unthrottle_falsy e ip name now hf ht, hf]
        · simp [update_unthrottle_truthy e ip name now hf ht, hf]

/-- `throttle_count` is incremented exactly on a `false → true` transition
and never otherwise. -/
theorem update_count (existing : Option LedgerEntry) (ip name : String) (b : Bool)
    (now : Nat) :
    (update_throttle_history existing ip name b now).entry.throttle_count =
      (match existing with
       | none => 0
       | some e =>
         if e.current_throttled = false ∧ b = true then e.throttle_count + 1
         else e.throttle_count) := by
  match existing with
  | none => simp [update_first, initEntry]
  | some e =>
    by_cases hc : e.current_throttled = b
    · simp only [update_noChange e ip name b now hc]
      have : ¬(e.current_throttled = false ∧ b = true) := by
        rw [hc]; rintro ⟨h1, h2⟩; rw [h1] at h2; cases h2
      simp [this]
    · cases b with
      | true =>
        have hf : e.current_throttled = false := by
          cases hcur : e.current_throttled <;> simp_all
        simp [update_onset e ip name now hf, hf]
      | false =>
        have hf : e.current_throttled = true := by
          cases hcur : e.current_throttled <;> simp_all
        cases ht : truthyTime e.last_throttle_time
        · simp [update_unthrottle_falsy e ip name now hf ht, hf]
        · simp [update_unthrottle_truthy e ip name now hf ht, hf]

/-! ## Event-list cap lemmas -/

theorem capList_eq_of_le {l : List ThrottleEvent} (h : l.length ≤ 100) :
    capList l = l := by
  unfold capList
  rw [if_neg (by omega)]

theorem capList_length_le {l : List ThrottleEvent} (h : l.length ≤ 101) :
    (capList l).length ≤ 100 := by
  unfold capList
  split
  · simp only [List.length_drop]
    omega
  · omega

theorem capList_suffix (l : List ThrottleEvent) : (capList l) <:+ l := by
  unfold capList
  split
  · exact List.drop_suffix _ _
  · exact List.suffix_refl l

/-- The event list stays within the 100-entry cap across any single
`update_throttle_history` call. -/
theorem update_history_le (existing : Option LedgerEntry) (ip name : String)
    (b : Bool) (now : Nat)
    (h : ∀ e, existing = some e → e.history.length ≤ 100) :
    (update_throttle_history existing ip name b now).entry.history.length ≤ 100 := by
  match existing with
  | none => simp [update_first, initEntry]
  | some e =>
    have he : e.history.length ≤ 100 := h e rfl
    by_cases hc : e.current_throttled = b
    · simpa [update_noChange e ip name b now hc] using he
    · cases b with
      | true =>
        have hf : e.current_throttled = false := by
          cases hcur : e.current_throttled <;> simp_all
        simp only [update_onset e ip name now hf]
        exact capList_length_le (by simp; omega)
      | false =>
        have hf : e.current_throttled = true := by
          cases hcur : e.current_throttled <;> simp_all
        cases ht : truthyTime e.last_throttle_time
        · simp only [update_unthrottle_falsy e ip name now hf ht]
          exact capList_length_le (by omega)
        · simp only [update_unthrottle_truthy e ip name now hf ht]
          exact capList_length_le (by simp; omega)

/-! ## Per-resource processing lemmas -/

/-- The comparison loop never mutates the cache; the cache is only replaced
wholesale at the end of the cycle. -/
theorem process_cached (st : MonitorState) (now : Nat) (ok : Bool) (ip : String)
    (p : Payload) : (process_resource st now ok ip p).cached = st.cached := by
  rcases ho : (lookupA st.cached ip).map Payload.trafficThrottled with _ | old
  · simp [process_resource, ho]
  · simp only [process_resource, ho]
    split <;> rfl

/-- Processing one resource leaves every other resource's ledger entry
untouched. -/
theorem process_ledger_other (st : MonitorState) (now : Nat) (ok : Bool)
    (ip : String) (p : Payload) (ip' : String) (hne : ip ≠ ip') :
    lookupA (process_resource st now ok ip p).ledger ip' = lookupA st.ledger ip' := by
  rcases ho : (lookupA st.cached ip).map Payload.trafficThrottled with _ | old
  · simp [process_resource, ho, lookupA_insertA_ne _ _ _ _ hne]
  · simp only [process_resource, ho]
    split
    · simp [lookupA_insertA_ne _ _ _ _ hne]
    · rfl

/-- The ledger entry a resource holds after its processing step: when the
cache gate opens (resource not cached, or cached flag differing) the entry
is the result of `update_throttle_history` against the pre-step ledger;
otherwise the ledger is untouched. -/
theorem process_ledger_self (st : MonitorState) (now : Nat) (ok : Bool)
    (ip : String) (p : Payload) :
    lookupA (process_resource st now ok ip p).ledger ip =
      (match (lookupA st.cached ip).map Payload.trafficThrottled with
       | none => some (update_throttle_history (lookupA st.ledger ip) ip
           p.server_name p.trafficThrottled now).entry
       | some old =>
         if old ≠ p.trafficThrottled then
           some (update_throttle_history (lookupA st.ledger ip) ip
             p.server_name p.trafficThrottled now).entry
         else lookupA st.ledger ip) := by
  rcases ho : (lookupA st.cached ip).map Payload.trafficThrottled with _ | old
  · simp [process_resource, ho, lookupA_insertA_self]
  · simp only [process_resource, ho]
    split
    · simp [lookupA_insertA_self]
    · rfl

/-- The save counter advances by one exactly when `save_pred` holds for the
processed resource. -/
theorem process_saves (st : MonitorState) (now : Nat) (ok : Bool) (ip : String)
    (p : Payload) :
    (process_resource st now ok ip p).saves =
      st.saves + (if save_pred st (ip, p) then 1 else 0) := by
  rcases ho : lookupA st.cached ip with _ | c
  · simp only [process_resource, ho, Option.map_none, save_pred,
      update_saved]
    rcases lookupA st.ledger ip with _ | e <;> simp
  · simp only [process_resource, ho, Option.map_some, save_pred]
    by_cases hc : c.trafficThrottled = p.trafficThrottled
    · simp [hc]
    · simp only [if_neg (by simpa using hc), ne_eq, hc, not_false_iff, if_true,
        update_saved, bne_iff_ne, decide_eq_true_eq]
      have hcb : (c.trafficThrottled != p.trafficThrottled) = true := by
        simpa using hc
      rcases lookupA st.ledger ip with _ | e <;> simp [hcb, hc]

/-- Processing a resource whose cached flag equals the observed flag is a
no-op on the whole monitor state. -/
theorem process_skip (st : MonitorState) (now : Nat) (ok : Bool) (ip : String)
    (p : Payload)
    (h : (lookupA st.cached ip).map Payload.trafficThrottled =
      some p.trafficThrottled) :
    process_resource st now ok ip p = st := by
  simp only [process_resource, h]
  simp

/-! ## Cycle-level fold lemmas -/

/-- The whole comparison loop leaves the cache as it was; only the final
wholesale replacement changes it. -/
theorem fold_cached (nd : List (String × Payload)) (st : MonitorState) (now : Nat)
    (oc : String → Bool) :
    (nd.foldl (fun s kp => process_resource s now (oc kp.1) kp.1 kp.2) st).cached =
      st.cached := by
  induction nd generalizing st with
  | nil => rfl
  | cons kp nd' ih =>
    simp only [List.foldl_cons]
    rw [ih, process_cached]

/-- The comparison loop leaves the ledger untouched at every key that does
not occur in the observation set. -/
theorem fold_ledger_not_mem (nd : List (String × Payload)) (st : MonitorState)
    (now : Nat) (oc : String → Bool) (ip : String) (h : ip ∉ nd.map Prod.fst) :
    lookupA (nd.foldl (fun s kp => process_resource s now (oc kp.1) kp.1 kp.2) st).ledger ip =
      lookupA st.ledger ip := by
  induction nd generalizing st with
  | nil => rfl
  | cons kp nd' ih =>
    simp only [List.map_cons, List.mem_cons, not_or] at h
    simp only [List.foldl_cons]
    rw [ih _ h.2, process_ledger_other _ _ _ _ _ _ (Ne.symm h.1)]

/-- `save_pred` is stable under processing a different resource. -/
theorem save_pred_frame (st : MonitorState) (now : Nat) (ok : Bool) (ip : String)
    (p : Payload) (kp : String × Payload) (h : ip ≠ kp.1) :
    save_pred (process_resource st now ok ip p) kp = save_pred st kp := by
  unfold save_pred
  rw [process_cached, process_ledger_other _ _ _ _ _ _ h]

/-- The number of ledger saves a cycle's comparison loop performs is the
number of observed resources satisfying `save_pred` in the pre-cycle
state. -/
theorem fold_saves (nd : List (String × Payload)) (st : MonitorState) (now : Nat)
    (oc : String → Bool) (h : keysNodup nd) :
    (nd.foldl (fun s kp => process_resource s now (oc kp.1) kp.1 kp.2) st).saves =
      st.saves + nd.countP (save_pred st) := by
  induction nd generalizing st with
  | nil => rfl
  | cons kp nd' ih =>
    have hnd : keysNodup nd' := (List.nodup_cons.mp h).2
    have hk : kp.1 ∉ nd'.map Prod.fst := (List.nodup_cons.mp h).1
    simp only [List.foldl_cons]
    rw [ih _ hnd, process_saves]
    have hcong : nd'.countP (save_pred (process_resource st now (oc kp.1) kp.1 kp.2)) =
        nd'.countP (save_pred st) := by
      refine List.countP_congr ?_
      intro a ha
      have hne : kp.1 ≠ a.1 := by
        intro he
        exact hk (he ▸ List.mem_map_of_mem Prod.fst ha)
      rw [save_pred_frame _ _ _ _ _ _ hne]
    rw [hcong, List.countP_cons]
    ring

/-- The ledger entry a resource holds after the comparison loop of a cycle
with pairwise-distinct observation keys: the resource's own processing step
against the pre-cycle cache and ledger decides it, and no other step
touches it. -/
theorem fold_ledger_mem (nd : List (String × Payload)) (st : MonitorState)
    (now : Nat) (oc : String → Bool) (ip : String) (p : Payload)
    (hm : (ip, p) ∈ nd) (h : keysNodup nd) :
    lookupA (nd.foldl (fun s kp => process_resource s now (oc kp.1) kp.1 kp.2) st).ledger ip =
      (match (lookupA st.cached ip).map Payload.trafficThrottled with
       | none => some (update_throttle_history (lookupA st.ledger ip) ip
           p.server_name p.trafficThrottled now).entry
       | some old =>
         if old ≠ p.trafficThrottled then
           some (update_throttle_history (lookupA st.ledger ip) ip
             p.server_name p.trafficThrottled now).entry
         else lookupA st.ledger ip) := by
  induction nd generalizing st with
  | nil => cases hm
  | cons kp nd' ih =>
    have hnd : keysNodup nd' := (List.nodup_cons.mp h).2
    have hk : kp.1 ∉ nd'.map Prod.fst := (List.nodup_cons.mp h).1
    simp only [List.foldl_cons]
    rcases List.mem_cons.mp hm with he | hm'
    · have hip : ip ∉ nd'.map Prod.fst := by
        have : kp.1 = ip := by rw [← he]
        exact this ▸ hk
      rw [fold_ledger_not_mem _ _ _ _ _ hip, ← he]
      exact process_ledger_self st now (oc (ip, p).1) ip p
    · have hne : kp.1 ≠ ip := by
        intro he2
        exact hk (he2 ▸ List.mem_map_of_mem Prod.fst hm')
      rw [ih _ hm' hnd, process_cached, process_ledger_other _ _ _ _ _ _ hne]

/-- A comparison loop in which every observed resource's cached flag equals
its observed flag does nothing at all. -/
theorem fold_skip (nd : List (String × Payload)) (st : MonitorState) (now : Nat)
    (oc : String → Bool)
    (h : ∀ kp ∈ nd, (lookupA st.cached kp.1).map Payload.trafficThrottled =
      some kp.2.trafficThrottled) :
    nd.foldl (fun s kp => process_resource s now (oc kp.1) kp.1 kp.2) st = st := by
  induction nd with
  | nil => rfl
  | cons kp nd' ih =>
    simp only [List.foldl_cons]
    rw [process_skip _ _ _ _ _ (h kp (List.mem_cons_self _ _))]
    exact ih (fun kp' h' => h kp' (List.mem_cons_of_mem _ h'))

/-! ## Downstream-outcome independence lemmas -/

/-- Two per-resource processing steps that start from states agreeing on
cache, ledger, save counter and notification log — and differ only in the
recorded downstream-call outcomes — still agree on all four after the step:
the downstream outcome is swallowed by the driver's `try/except` and flows
only into the call log. -/
theorem process_outcome_agree (s s2 : MonitorState) (now : Nat) (ok ok2 : Bool)
    (ip : String) (p : Payload) (h1 : s.cached = s2.cached)
    (h2 : s.ledger = s2.ledger) (h3 : s.saves = s2.saves) (h4 : s.notes = s2.notes) :
    (process_resource s now ok ip p).cached = (process_resource s2 now ok2 ip p).cached ∧
    (process_resource s now ok ip p).ledger = (process_resource s2 now ok2 ip p).ledger ∧
    (process_resource s now ok ip p).saves = (process_resource s2 now ok2 ip p).saves ∧
    (process_resource s now ok ip p).notes = (process_resource s2 now ok2 ip p).notes := by
  obtain ⟨c, l, sv, nt, cl⟩ := s
  obtain ⟨c2, l2, sv2, nt2, cl2⟩ := s2
  simp only at h1 h2 h3 h4
  subst h1
  subst h2
  subst h3
  subst h4
  rcases ho : (lookupA c ip).map Payload.trafficThrottled with _ | old
  · simp [process_resource, ho]
  · simp only [process_resource, ho]
    split <;> simp

/-- Whole-loop version of `process_outcome_agree`. -/
theorem fold_outcome_agree (nd : List (String × Payload)) (s s2 : MonitorState)
    (now : Nat) (oc oc2 : String → Bool) (h1 : s.cached = s2.cached)
    (h2 : s.ledger = s2.ledger) (h3 : s.saves = s2.saves) (h4 : s.notes = s2.notes) :
    (nd.foldl (fun a kp => process_resource a now (oc kp.1) kp.1 kp.2) s).cached =
      (nd.foldl (fun a kp => process_resource a now (oc2 kp.1) kp.1 kp.2) s2).cached ∧
    (nd.foldl (fun a kp => process_resource a now (oc kp.1) kp.1 kp.2) s).ledger =
      (nd.foldl (fun a kp => process_resource a now (oc2 kp.1) kp.1 kp.2) s2).ledger ∧
    (nd.foldl (fun a kp => process_resource a now (oc kp.1) kp.1 kp.2) s).saves =
      (nd.foldl (fun a kp => process_resource a now (oc2 kp.1) kp.1 kp.2) s2).saves ∧
    (nd.foldl (fun a kp => process_resource a now (oc kp.1) kp.1 kp.2) s).notes =
      (nd.foldl (fun a kp => process_resource a now (oc2 kp.1) kp.1 kp.2) s2).notes := by
  induction nd generalizing s s2 with
  | nil => exact ⟨h1, h2, h3, h4⟩
  | cons kp nd' ih =>
    simp only [List.foldl_cons]
    obtain ⟨g1, g2, g3, g4⟩ :=
      process_outcome_agree s s2 now (oc kp.1) (oc2 kp.1) kp.1 kp.2 h1 h2 h3 h4
    exact ih _ _ g1 g2 g3 g4

/-- The throttle flag accumulated by `check_traffic_throttled`'s loop is the
OR of all interfaces' flags. -/
theorem trafficFold_fst (l : List NetInterface) (b : Bool) (t : TrafficInfo) :
    (l.foldl trafficStep (b, t)).1 = (b || l.any NetInterface.trafficThrottled) := by
  induction l generalizing b t with
  | nil => simp
  | cons i l ih =>
    simp only [List.foldl_cons, List.any_cons]
    rw [trafficStep, ih, Bool.or_assoc]

/-! ## Claims -/

/-- C7 (confirmed): per ledger entry, `throttle_count` increases by exactly
1 on each `false → true` transition and never changes otherwise — not on a
first observation (where it starts at 0), not on `true → false` transitions
and not on no-change observations. The count lives in `Nat`, so it is a
non-negative integer counting throttle onsets. -/
theorem C7_throttle_count_increment (existing : Option LedgerEntry)
    (ip name : String) (b : Bool) (now : Nat) :
    (update_throttle_history existing ip name b now).entry.throttle_count =
      (match existing with
       | none => 0
       | some e =>
         if e.current_throttled = false ∧ b = true then e.throttle_count + 1
         else e.throttle_count) :=
  update_count existing ip name b now

/-- C10 (confirmed): the status source reports a resource throttled exactly
when at least one interface has `trafficThrottled`; a server whose details
load but list zero interfaces yields `(False, zero counters)`; a failed
details load yields `(None, empty)`, and the driver's per-server loop skips
such a resource for the cycle. -/
theorem C10_throttle_probe :
    (∀ d : ServerLiveDetails, (check_traffic_throttled (some d)).1 =
        some (d.interfaces.any NetInterface.trafficThrottled)) ∧
    check_traffic_throttled (some ⟨[]⟩) = (some false, some ⟨0, 0, []⟩) ∧
    check_traffic_throttled none = (none, none) ∧
    (∀ (sd : List (String × Payload)) (s : ServerEntry),
      (check_traffic_throttled s.liveDetails).1 = none → serverStep sd s = sd) := by
  refine ⟨?_, rfl, rfl, ?_⟩
  · intro d
    simp only [check_traffic_throttled]
    rw [trafficFold_fst]
    simp
  · intro sd s h
    rcases hs : s.server_id with _ | sid
    · simp [serverStep, hs]
    · rcases hi : get_server_ipv4 s.ipDetails with _ | ip
      · simp [serverStep, hs, hi]
      · simp [serverStep, hs, hi, h]

/-- Witness for C10: a server entry whose live-details request failed is
skipped by the account loop. -/
theorem C10_throttle_probe_witness :
    serverStep [] ⟨some "v1", "srv", some ["198.51.100.1"], none, none⟩ = [] :=
  C10_throttle_probe.2.2.2 [] ⟨some "v1", "srv", some ["198.51.100.1"], none, none⟩ rfl

/-- C9 (corrected) counterexample: the claim states the calculator returns
`now - last_throttle_time` whenever the entry is currently throttled. The
entry created by a first observation that is already throttled is currently
throttled but has no `last_throttle_time` (creation appends no event and
stamps no time), and the code returns 0 for it — so the claimed formula has
no witness timestamp at a reachable entry. -/
theorem C9_availability_counterexample :
    ¬ availabilityDurationSpec
      (update_throttle_history none "203.0.113.9" "srv" true 50).entry 100 := by
  intro h
  rw [update_first] at h
  simp only [availabilityDurationSpec, initEntry] at h
  obtain ⟨t, ht, _⟩ := h
  cases ht

/-- C9 (amended): the calculator is a pure function of `(entry, now)`;
`current_throttle_duration = now - t` when the entry is currently throttled
and `last_throttle_time` is a recorded nonzero timestamp `t`, and `0` when
the entry is not throttled, `last_throttle_time` is absent, or it is zero
(Python falsiness); `total_throttled_time` equals the stored
`total_throttled_seconds` (closed periods only — in particular it is
unchanged by a transition into the currently open throttle period); the
remaining fields are copied from the entry unmutated. -/
theorem C9_availability_amended (e : LedgerEntry) (now t2 : Nat) (ip name : String) :
    (e.current_throttled = false →
      (calculate_availability (some e) now).current_throttle_duration = 0) ∧
    (e.last_throttle_time = none →
      (calculate_availability (some e) now).current_throttle_duration = 0) ∧
    (∀ t, e.last_throttle_time = some t → t ≠ 0 → e.current_throttled = true →
      (calculate_availability (some e) now).current_throttle_duration = now - t) ∧
    (∀ t, e.last_throttle_time = some t → t = 0 →
      (calculate_availability (some e) now).current_throttle_duration = 0) ∧
    (calculate_availability (some e) now).total_throttled_time =
      e.total_throttled_seconds ∧
    (calculate_availability (some (update_throttle_history
        (some { e with current_throttled := false }) ip name true t2).entry)
      now).total_throttled_time = e.total_throttled_seconds ∧
    (calculate_availability (some e) now).throttle_count = e.throttle_count ∧
    (calculate_availability (some e) now).history = e.history ∧
    (calculate_availability (some e) now).last_throttle_time = e.last_throttle_time ∧
    (calculate_availability (some e) now).last_unthrottle_time =
      e.last_unthrottle_time := by
  refine ⟨?_, ?_, ?_, ?_, rfl, ?_, rfl, rfl, rfl, rfl⟩
  · intro h
    simp [calculate_availability, h]
  · intro h
    simp [calculate_availability, h, truthyTime]
  · intro t ht hnz h
    simp [calculate_availability, h, ht, truthyTime, hnz]
  · intro t ht hz
    subst hz
    simp [calculate_availability, ht, truthyTime]
  · rw [update_onset _ _ _ _ rfl]
    simp [calculate_availability]

/-- Witness for C9 (amended): concrete throttled entry with a recorded
throttle onset at 40 observed at 100 shows a 60-second open duration. -/
theorem C9_availability_amended_witness :
    (calculate_availability
      (some ⟨"srv", true, some 40, none, 1, 7, []⟩) 100).current_throttle_duration =
      100 - 40 :=
  (C9_availability_amended ⟨"srv", true, some 40, none, 1, 7, []⟩ 100 0 "i" "s").2.2.1
    40 rfl (by decide) rfl

/-- C4 (corrected) counterexample: `save_throttle_history` opens the final
history file with mode `w` (truncate in place) and writes into it directly,
so a concurrent load can observe a state — here the proper prefix `"NEW"` of
the new content — that is neither the old nor the new document, refuting
write-then-replace atomicity. -/
theorem C4_save_counterexample :
    "NEW" ∈ save_file_states "OLD" "NEWDATA" ∧
    "NEW" ≠ "OLD" ∧ "NEW" ≠ "NEWDATA" := by decide

/-- C4 (amended): the save is a direct truncate-then-write into the history
file: the states a concurrent load can observe are exactly the old content
followed by the prefixes of the new content in growing order — in
particular the empty truncated file is observable — rather than only the
old or the new document as write-then-replace would guarantee. -/
theorem C4_save_amended (old new : String) :
    (∀ s ∈ save_file_states old new,
      s = old ∨ ∃ k, k ≤ new.length ∧ s = new.take k) ∧
    (save_file_states old new).head? = some old ∧
    "" ∈ save_file_states old new := by
  refine ⟨?_, rfl, ?_⟩
  · intro s hs
    rcases List.mem_cons.mp hs with h | h
    · exact Or.inl h
    · obtain ⟨k, hk, he⟩ := List.mem_map.mp h
      exact Or.inr ⟨k, Nat.lt_succ_iff.mp (List.mem_range.mp hk), he.symm⟩
  · unfold save_file_states
    refine List.mem_cons_of_mem _ (List.mem_map.mpr ⟨0, ?_, rfl⟩)
    exact List.mem_range.mpr (Nat.succ_pos _)

/-- Witness for C4 (amended): the mid-write state `"NE"` is a prefix of the
new content. -/
theorem C4_save_amended_witness :
    "NE" = "OLD" ∨ ∃ k, k ≤ "NEWDATA".length ∧ "NE" = "NEWDATA".take k :=
  (C4_save_amended "OLD" "NEWDATA").1 "NE" (by decide)

/-- The 100-entry cap is an invariant of any run of observations starting
from a start entry within the cap (or from no entry). -/
theorem runEntry_le (ip name : String) (obs : List (Bool × Nat))
    (start : Option LedgerEntry)
    (h : ∀ e, start = some e → e.history.length ≤ 100) :
    ∀ e, runEntry ip name start obs = some e → e.history.length ≤ 100 := by
  induction obs generalizing start with
  | nil => exact h
  | cons ob obs' ih =>
    intro e he
    refine ih (some (update_throttle_history start ip name ob.1 ob.2).entry) ?_ e he
    intro e2 he2
    cases he2
    exact update_history_le start ip name ob.1 ob.2 h

/-- C8 (confirmed): after any sequence of processed observations the event
list never exceeds 100 entries, and each processing step appends at most
one event and then keeps exactly the most recent entries in order, dropping
the oldest first (`history[-100:]`). -/
theorem C8_event_cap_fifo :
    (∀ (ip name : String) (obs : List (Bool × Nat)) (e : LedgerEntry),
      runEntry ip name none obs = some e → e.history.length ≤ 100) ∧
    (∀ (e : LedgerEntry) (ip name : String) (b : Bool) (now : Nat),
      e.history.length ≤ 100 →
      ∃ app : List ThrottleEvent, app.length ≤ 1 ∧
        (update_throttle_history (some e) ip name b now).entry.history =
          (if 100 < (e.history ++ app).length then
            (e.history ++ app).drop ((e.history ++ app).length - 100)
           else e.history ++ app)) := by
  constructor
  · intro ip name obs e he
    exact runEntry_le ip name obs none (fun e2 he2 => by cases he2) e he
  · intro e ip name b now hle
    by_cases hc : e.current_throttled = b
    · refine ⟨[], by simp, ?_⟩
      rw [update_noChange e ip name b now hc]
      simp only [nameFix_history, List.append_nil]
      rw [if_neg (by omega)]
    · cases b with
      | true =>
        have hf : e.current_throttled = false := by
          cases hcur : e.current_throttled <;> simp_all
        refine ⟨[⟨.throttled, now, none⟩], by simp, ?_⟩
        rw [update_onset e ip name now hf]
        simp [capList]
      | false =>
        have hf : e.current_throttled = true := by
          cases hcur : e.current_throttled <;> simp_all
        cases ht : truthyTime e.last_throttle_time
        · refine ⟨[], by simp, ?_⟩
          rw [update_unthrottle_falsy e ip name now hf ht]
          simp only [nameFix_history, List.append_nil]
          rw [capList_eq_of_le hle, if_neg (by omega)]
        · refine ⟨[⟨.unthrottled, now,
            some (now - e.last_throttle_time.getD 0)⟩], by simp, ?_⟩
          rw [update_unthrottle_truthy e ip name now hf ht]
          simp [capList]

/-- Witness for C8: a throttle-unthrottle run ends with an event list of
length 2, within the cap. -/
theorem C8_event_cap_fifo_witness :
    (⟨"s", false, some 1, some 6, 1, 5, [⟨.throttled, 1, none⟩,
      ⟨.unthrottled, 6, some 5⟩]⟩ : LedgerEntry).history.length ≤ 100 :=
  C8_event_cap_fifo.1 "i" "s" [(false, 0), (true, 1), (false, 6)] _ (by decide)

/-- C6 (corrected) counterexample: a resource first observed throttled gets
an entry whose `last_throttle_time` is `None` (creation stamps no time);
when it is later observed unthrottled the flag flips (a genuine
`Transition(true → false)`) but — because `last_throttle_time` is falsy —
no `unthrottled` event is appended and `total_throttled_seconds` stays 0,
contradicting the claim that every such transition appends an event and
accumulates `unthrottle_time - last_throttle_time`. -/
theorem C6_unthrottle_counterexample :
    (update_throttle_history none "203.0.113.9" "srv" true 100).entry.current_throttled
        = true ∧
    (update_throttle_history
        (some (update_throttle_history none "203.0.113.9" "srv" true 100).entry)
        "203.0.113.9" "srv" false 700).entry.current_throttled = false ∧
    (update_throttle_history
        (some (update_throttle_history none "203.0.113.9" "srv" true 100).entry)
        "203.0.113.9" "srv" false 700).entry.history = [] ∧
    (update_throttle_history
        (some (update_throttle_history none "203.0.113.9" "srv" true 100).entry)
        "203.0.113.9" "srv" false 700).entry.total_throttled_seconds = 0 := by
  decide

/-- C6 (amended): on a `Transition(true → false)` whose entry carries a
recorded nonzero `last_throttle_time = t`, `total_throttled_seconds`
becomes its prior value plus `now - t`, exactly once (an observation equal
to the recorded flag never changes the total), one `unthrottled` event
carrying that duration is appended and `last_unthrottle_time` is set; when
`last_throttle_time` is absent (entry born throttled) only the flag and
`last_unthrottle_time` change — no event, no accumulation. -/
theorem C6_unthrottle_accounting (e : LedgerEntry) (ip name : String) (now : Nat)
    (h : e.current_throttled = true) (hl : e.history.length < 100) :
    (∀ t, e.last_throttle_time = some t → t ≠ 0 →
      (update_throttle_history (some e) ip name false now).entry.total_throttled_seconds
          = e.total_throttled_seconds + (now - t) ∧
      (update_throttle_history (some e) ip name false now).entry.history =
          e.history ++ [⟨.unthrottled, now, some (now - t)⟩] ∧
      (update_throttle_history (some e) ip name false now).entry.last_unthrottle_time
          = some now) ∧
    (e.last_throttle_time = none →
      (update_throttle_history (some e) ip name false now).entry.total_throttled_seconds
          = e.total_throttled_seconds ∧
      (update_throttle_history (some e) ip name false now).entry.history = e.history ∧
      (update_throttle_history (some e) ip name false now).entry.last_unthrottle_time
          = some now) ∧
    (∀ (e2 : LedgerEntry) (b : Bool), e2.current_throttled = b →
      (update_throttle_history (some e2) ip name b now).entry.total_throttled_seconds
          = e2.total_throttled_seconds) := by
  refine ⟨?_, ?_, ?_⟩
  · intro t ht hnz
    have htr : truthyTime e.last_throttle_time = true := by
      rw [ht]; simpa [truthyTime] using hnz
    rw [update_unthrottle_truthy e ip name now h htr]
    refine ⟨by simp [ht], ?_, by simp⟩
    simp only [ht]
    rw [capList_eq_of_le (by simp; omega)]
    simp
  · intro ht
    have htr : truthyTime e.last_throttle_time = false := by
      rw [ht]; rfl
    rw [update_unthrottle_falsy e ip name now h htr]
    refine ⟨by simp, ?_, by simp⟩
    simp only [nameFix_history]
    rw [capList_eq_of_le (by omega)]
  · intro e2 b hb
    rw [update_noChange e2 ip name b now hb]
    simp

/-- Witness for C6 (amended): closing a throttle period opened at 100 and
closed at 700 adds 600 seconds to a prior total of 7 and appends the
`unthrottled` event with `duration_seconds = 600`. -/
theorem C6_unthrottle_accounting_witness :
    (update_throttle_history (some ⟨"srv", true, some 100, none, 1, 7, []⟩)
        "i" "s" false 700).entry.total_throttled_seconds = 7 + (700 - 100) ∧
    (update_throttle_history (some ⟨"srv", true, some 100, none, 1, 7, []⟩)
        "i" "s" false 700).entry.history =
      [] ++ [⟨.unthrottled, 700, some (700 - 100)⟩] ∧
    (update_throttle_history (some ⟨"srv", true, some 100, none, 1, 7, []⟩)
        "i" "s" false 700).entry.last_unthrottle_time = some 700 :=
  (C6_unthrottle_accounting ⟨"srv", true, some 100, none, 1, 7, []⟩ "i" "s" 700
    rfl (by decide)).1 100 rfl (by decide)

/-- C2 (corrected) counterexample: the save is not performed once per cycle
after all resources. A cycle that first discovers two resources (both
throttled) creates two ledger entries yet performs zero saves, and a cycle
in which two already-tracked resources both flip performs two saves — in
neither case exactly one save per cycle. -/
theorem C2_save_counterexample :
    (update_cached_data ⟨[], [], 0, [], []⟩
        [("192.0.2.1", ⟨true, "ONLINE", "a", "v1", 0, 0⟩),
         ("192.0.2.2", ⟨true, "ONLINE", "b", "v2", 0, 0⟩)]
        5 (fun _ => true)).saves = 0 ∧
    (update_cached_data
        ⟨[("192.0.2.1", ⟨false, "ONLINE", "a", "v1", 0, 0⟩),
          ("192.0.2.2", ⟨false, "ONLINE", "b", "v2", 0, 0⟩)],
         [("192.0.2.1", initEntry "a" false), ("192.0.2.2", initEntry "b" false)],
         0, [], []⟩
        [("192.0.2.1", ⟨true, "ONLINE", "a", "v1", 0, 0⟩),
         ("192.0.2.2", ⟨true, "ONLINE", "b", "v2", 0, 0⟩)]
        5 (fun _ => true)).saves = 2 := by
  decide

/-- C2 (amended): the full ledger mapping is persisted from inside the
per-resource processing, once per resource whose observation flips its
ledger flag (`save_pred`): a cycle with k such resources saves k times —
zero when nothing changes, several times when several resources flip — not
exactly once per cycle after all resources. -/
theorem C2_save_per_transition (st : MonitorState) (nd : List (String × Payload))
    (now : Nat) (oc : String → Bool) (hnd : keysNodup nd) :
    (update_cached_data st nd now oc).saves = st.saves + nd.countP (save_pred st) :=
  fold_saves nd st now oc hnd

/-- Witness for C2 (amended): one flipping resource and one unchanged
resource give exactly one save. -/
theorem C2_save_per_transition_witness :
    (update_cached_data
        ⟨[("192.0.2.1", ⟨false, "ONLINE", "a", "v1", 0, 0⟩),
          ("192.0.2.2", ⟨false, "ONLINE", "b", "v2", 0, 0⟩)],
         [("192.0.2.1", initEntry "a" false), ("192.0.2.2", initEntry "b" false)],
         0, [], []⟩
        [("192.0.2.1", ⟨true, "ONLINE", "a", "v1", 0, 0⟩),
         ("192.0.2.2", ⟨false, "ONLINE", "b", "v2", 0, 0⟩)]
        7 (fun _ => true)).saves =
      (⟨[("192.0.2.1", ⟨false, "ONLINE", "a", "v1", 0, 0⟩),
          ("192.0.2.2", ⟨false, "ONLINE", "b", "v2", 0, 0⟩)],
         [("192.0.2.1", initEntry "a" false), ("192.0.2.2", initEntry "b" false)],
         0, [], []⟩ : MonitorState).saves +
      List.countP (save_pred
        ⟨[("192.0.2.1", ⟨false, "ONLINE", "a", "v1", 0, 0⟩),
          ("192.0.2.2", ⟨false, "ONLINE", "b", "v2", 0, 0⟩)],
         [("192.0.2.1", initEntry "a" false), ("192.0.2.2", initEntry "b" false)],
         0, [], []⟩)
        [("192.0.2.1", ⟨true, "ONLINE", "a", "v1", 0, 0⟩),
         ("192.0.2.2", ⟨false, "ONLINE", "b", "v2", 0, 0⟩)] :=
  C2_save_per_transition _ _ 7 (fun _ => true) (by decide)

/-- C3 (corrected) counterexample: a tracked resource whose live-details
request fails this cycle is skipped by the account loop (first conjunct),
but after the cycle's wholesale cache replacement its previous cached value
is gone — the lookup yields nothing instead of the prior payload (second
conjunct), contradicting "previous cached value remains visible"; and a
resource whose operational status is unobtainable is not skipped at all —
it is recorded with status UNKNOWN (third conjunct), contradicting "any
required field (IP, status, or traffic)". -/
theorem C3_skip_counterexample :
    get_server_info_from_account
        [⟨some "v1", "srv", some ["198.51.100.1"], some ⟨some "ONLINE"⟩, none⟩] = [] ∧
    lookupA (update_cached_data
        ⟨[("198.51.100.1", ⟨false, "ONLINE", "srv", "v1", 10, 20⟩)],
         [("198.51.100.1", initEntry "srv" false)], 0, [], []⟩
        (get_server_info_from_account
          [⟨some "v1", "srv", some ["198.51.100.1"], some ⟨some "ONLINE"⟩, none⟩])
        5 (fun _ => true)).cached "198.51.100.1" = none ∧
    get_server_info_from_account
        [⟨some "v1", "srv", some ["198.51.100.1"], none, some ⟨[]⟩⟩] =
      [("198.51.100.1", ⟨false, "UNKNOWN", "srv", "v1", 0, 0⟩)] := by
  decide

/-- C3 (amended): a resource whose server id, IP or throttle/traffic
information is unobtainable is skipped for the cycle — no ledger mutation,
no save, no notification, no downstream call — but its previous cached
value does NOT remain visible: the wholesale cache replacement leaves the
cache holding only this cycle's observations (empty here); a missing
operational status does not cause a skip, the resource is recorded with
status `"UNKNOWN"`. -/
theorem C3_skip_semantics (st : MonitorState) (s : ServerEntry) (now : Nat)
    (oc : String → Bool)
    (h : s.server_id = none ∨ get_server_ipv4 s.ipDetails = none ∨
      (check_traffic_throttled s.liveDetails).1 = none) :
    (get_server_info_from_account [s] = [] ∧
     (update_cached_data st (get_server_info_from_account [s]) now oc).ledger =
       st.ledger ∧
     (update_cached_data st (get_server_info_from_account [s]) now oc).saves =
       st.saves ∧
     (update_cached_data st (get_server_info_from_account [s]) now oc).notes =
       st.notes ∧
     (update_cached_data st (get_server_info_from_account [s]) now oc).calls =
       st.calls ∧
     (∀ ip, lookupA
       (update_cached_data st (get_server_info_from_account [s]) now oc).cached ip =
         none)) ∧
    (∀ (s2 : ServerEntry) (sid ip : String) (b : Bool),
      s2.server_id = some sid → get_server_ipv4 s2.ipDetails = some ip →
      s2.statusDetails = none → (check_traffic_throttled s2.liveDetails).1 = some b →
      serverStep [] s2 =
        [(ip, ⟨b, "UNKNOWN", s2.server_name, sid,
          ((check_traffic_throttled s2.liveDetails).2.map TrafficInfo.total_rx_mib).getD 0,
          ((check_traffic_throttled s2.liveDetails).2.map TrafficInfo.total_tx_mib).getD 0⟩)]) := by
  constructor
  · have hnil : get_server_info_from_account [s] = [] := by
      show serverStep [] s = []
      rcases h with h | h | h
      · simp [serverStep, h]
      · rcases hs : s.server_id with _ | sid
        · simp [serverStep, hs]
        · simp [serverStep, hs, h]
      · rcases hs : s.server_id with _ | sid
        · simp [serverStep, hs]
        · rcases hi : get_server_ipv4 s.ipDetails with _ | ip
          · simp [serverStep, hs, hi]
          · simp [serverStep, hs, hi, h]
    rw [hnil]
    exact ⟨rfl, rfl, rfl, rfl, rfl, fun ip => rfl⟩
  · intro s2 sid ip b hsid hip hst hthr
    simp [serverStep, hsid, hip, hst, hthr, get_server_status]
    rcases hc : check_traffic_throttled s2.liveDetails with ⟨c1, c2⟩
    rw [hc] at hthr
    simp at hthr
    simp [insertA, pyOrUnknown, hthr]

/-- Witness for C3 (amended): a server whose live-details request failed is
skipped, the ledger is untouched and the old cache entry is no longer
served; a server with IP and traffic but no status is recorded as
UNKNOWN. -/
theorem C3_skip_semantics_witness :
    (get_server_info_from_account
        [⟨some "v1", "srv", some ["198.51.100.1"], some ⟨some "ONLINE"⟩, none⟩] = [] ∧
     (update_cached_data
        ⟨[("198.51.100.1", ⟨false, "ONLINE", "srv", "v1", 10, 20⟩)],
         [("198.51.100.1", initEntry "srv" false)], 0, [], []⟩
        (get_server_info_from_account
          [⟨some "v1", "srv", some ["198.51.100.1"], some ⟨some "ONLINE"⟩, none⟩])
        5 (fun _ => true)).ledger =
       (⟨[("198.51.100.1", ⟨false, "ONLINE", "srv", "v1", 10, 20⟩)],
         [("198.51.100.1", initEntry "srv" false)], 0, [], []⟩ : MonitorState).ledger ∧
     (update_cached_data
        ⟨[("198.51.100.1", ⟨false, "ONLINE", "srv", "v1", 10, 20⟩)],
         [("198.51.100.1", initEntry "srv" false)], 0, [], []⟩
        (get_server_info_from_account
          [⟨some "v1", "srv", some ["198.51.100.1"], some ⟨some "ONLINE"⟩, none⟩])
        5 (fun _ => true)).saves =
       (⟨[("198.51.100.1", ⟨false, "ONLINE", "srv", "v1", 10, 20⟩)],
         [("198.51.100.1", initEntry "srv" false)], 0, [], []⟩ : MonitorState).saves ∧
     (update_cached_data
        ⟨[("198.51.100.1", ⟨false, "ONLINE", "srv", "v1", 10, 20⟩)],
         [("198.51.100.1", initEntry "srv" false)], 0, [], []⟩
        (get_server_info_from_account
          [⟨some "v1", "srv", some ["198.51.100.1"], some ⟨some "ONLINE"⟩, none⟩])
        5 (fun _ => true)).notes =
       (⟨[("198.51.100.1", ⟨false, "ONLINE", "srv", "v1", 10, 20⟩)],
         [("198.51.100.1", initEntry "srv" false)], 0, [], []⟩ : MonitorState).notes ∧
     (update_cached_data
        ⟨[("198.51.100.1", ⟨false, "ONLINE", "srv", "v1", 10, 20⟩)],
         [("198.51.100.1", initEntry "srv" false)], 0, [], []⟩
        (get_server_info_from_account
          [⟨some "v1", "srv", some ["198.51.100.1"], some ⟨some "ONLINE"⟩, none⟩])
        5 (fun _ => true)).calls =
       (⟨[("198.51.100.1", ⟨false, "ONLINE", "srv", "v1", 10, 20⟩)],
         [("198.51.100.1", initEntry "srv" false)], 0, [], []⟩ : MonitorState).calls ∧
     (∀ ip, lookupA (update_cached_data
        ⟨[("198.51.100.1", ⟨false, "ONLINE", "srv", "v1", 10, 20⟩)],
         [("198.51.100.1", initEntry "srv" false)], 0, [], []⟩
        (get_server_info_from_account
          [⟨some "v1", "srv", some ["198.51.100.1"], some ⟨some "ONLINE"⟩, none⟩])
        5 (fun _ => true)).cached ip = none)) ∧
    (∀ (s2 : ServerEntry) (sid ip : String) (b : Bool),
      s2.server_id = some sid → get_server_ipv4 s2.ipDetails = some ip →
      s2.statusDetails = none → (check_traffic_throttled s2.liveDetails).1 = some b →
      serverStep [] s2 =
        [(ip, ⟨b, "UNKNOWN", s2.server_name, sid,
          ((check_traffic_throttled s2.liveDetails).2.map TrafficInfo.total_rx_mib).getD 0,
          ((check_traffic_throttled s2.liveDetails).2.map TrafficInfo.total_tx_mib).getD 0⟩)]) :=
  C3_skip_semantics
    ⟨[("198.51.100.1", ⟨false, "ONLINE", "srv", "v1", 10, 20⟩)],
     [("198.51.100.1", initEntry "srv" false)], 0, [], []⟩
    ⟨some "v1", "srv", some ["198.51.100.1"], some ⟨some "ONLINE"⟩, none⟩
    5 (fun _ => true) (Or.inr (Or.inr rfl))

/-- The cycle's ledger is the comparison loop's ledger (the final cache
replacement does not touch it). -/
theorem cycle_ledger_eq (st : MonitorState) (nd : List (String × Payload))
    (now : Nat) (oc : String → Bool) :
    (update_cached_data st nd now oc).ledger =
      (nd.foldl (fun s kp => process_resource s now (oc kp.1) kp.1 kp.2) st).ledger :=
  rfl

/-- After a cycle over a duplicate-free observation set starting from a
state satisfying the cache-ledger invariant, every observed resource's
ledger entry exists and records the freshly observed flag. -/
theorem cycle_flag_sync (st : MonitorState) (nd : List (String × Payload))
    (now : Nat) (oc : String → Bool) (hnd : keysNodup nd)
    (hinv : CacheLedgerAgree st) :
    ∀ ip p, (ip, p) ∈ nd →
      ∃ e2, lookupA (update_cached_data st nd now oc).ledger ip = some e2 ∧
        e2.current_throttled = p.trafficThrottled := by
  intro ip p hm
  have hfold := fold_ledger_mem nd st now oc ip p hm hnd
  rw [cycle_ledger_eq]
  rcases hc : lookupA st.cached ip with _ | c
  · rw [hc] at hfold
    simp only [Option.map_none'] at hfold
    exact ⟨_, hfold, update_flag _ _ _ _ _⟩
  · obtain ⟨e2, hl2, hfl⟩ := hinv ip c hc
    rw [hc] at hfold
    simp only [Option.map_some'] at hfold
    by_cases hne : c.trafficThrottled = p.trafficThrottled
    · rw [if_neg (not_not_intro hne)] at hfold
      rw [hfold, hl2]
      exact ⟨e2, rfl, by rw [hfl, hne]⟩
    · rw [if_pos hne] at hfold
      exact ⟨_, hfold, update_flag _ _ _ _ _⟩

/-- C1 (confirmed): per poll cycle and per resource of the observation set,
the classification realized on the ledger is decided against the ledger's
recorded flag, exactly as the spec's Transition Detector states:
`FirstObservation` exactly when the ledger has no entry for the resource
(and then the baseline entry recording the observed flag is created),
`Transition(from, to)` exactly when an entry exists whose recorded
`current_throttled` differs from the observed flag (and then the entry is
rewritten by the transition logic, ending with the observed flag), and
`NoChange` exactly when the recorded flag equals the observed one (and then
every ledger field except the display name is preserved). The cycle also
preserves the cache-ledger agreement invariant under which the cache gate
of `update_cached_data` coincides with the ledger-driven decision. -/
theorem C1_transition_classification (st : MonitorState)
    (nd : List (String × Payload)) (now : Nat) (oc : String → Bool)
    (hnd : keysNodup nd) (hinv : CacheLedgerAgree st) :
    (∀ ip p, (ip, p) ∈ nd →
      (classify (lookupA st.ledger ip) p.trafficThrottled = .firstObservation ↔
        lookupA st.ledger ip = none) ∧
      (∀ f t, classify (lookupA st.ledger ip) p.trafficThrottled = .transition f t ↔
        ∃ e, lookupA st.ledger ip = some e ∧ e.current_throttled = f ∧
          t = p.trafficThrottled ∧ f ≠ t) ∧
      (classify (lookupA st.ledger ip) p.trafficThrottled = .noChange ↔
        ∃ e, lookupA st.ledger ip = some e ∧
          e.current_throttled = p.trafficThrottled) ∧
      (lookupA st.ledger ip = none →
        lookupA (update_cached_data st nd now oc).ledger ip =
          some (initEntry p.server_name p.trafficThrottled)) ∧
      (∀ e, lookupA st.ledger ip = some e →
        e.current_throttled ≠ p.trafficThrottled →
        lookupA (update_cached_data st nd now oc).ledger ip =
          some (update_throttle_history (some e) ip p.server_name
            p.trafficThrottled now).entry ∧
        (update_throttle_history (some e) ip p.server_name
          p.trafficThrottled now).entry.current_throttled = p.trafficThrottled) ∧
      (∀ e, lookupA st.ledger ip = some e →
        e.current_throttled = p.trafficThrottled →
        ∃ e2, lookupA (update_cached_data st nd now oc).ledger ip = some e2 ∧
          e2.current_throttled = e.current_throttled ∧
          e2.last_throttle_time = e.last_throttle_time ∧
          e2.last_unthrottle_time = e.last_unthrottle_time ∧
          e2.throttle_count = e.throttle_count ∧
          e2.total_throttled_seconds = e.total_throttled_seconds ∧
          e2.history = e.history)) ∧
    CacheLedgerAgree (update_cached_data st nd now oc) := by
  constructor
  · intro ip p hm
    have hfold := fold_ledger_mem nd st now oc ip p hm hnd
    refine ⟨?_, ?_, ?_, ?_, ?_, ?_⟩
    · rcases hL : lookupA st.ledger ip with _ | e
      · simp [classify]
      · simp only [classify]
        split <;> simp
    · intro f t
      rcases hL : lookupA st.ledger ip with _ | e
      · simp [classify]
      · simp only [classify]
        by_cases he : e.current_throttled = p.trafficThrottled
        · rw [if_neg (not_not_intro he)]
          constructor
          · intro hcl
            cases hcl
          · rintro ⟨e2, he2, hf, ht, hft⟩
            rw [Option.some.injEq] at he2
            subst he2
            have hcon : f = t := by rw [← hf, he, ht]
            exact absurd hcon hft
        · rw [if_pos he]
          constructor
          · intro hcl
            injection hcl with h1 h2
            exact ⟨e, rfl, h1, h2.symm, by rw [← h1, ← h2]; exact he⟩
          · rintro ⟨e2, he2, hf, ht, hft⟩
            rw [Option.some.injEq] at he2
            subst he2
            rw [hf, ht]
    · rcases hL : lookupA st.ledger ip with _ | e
      · simp [classify]
      · simp only [classify]
        by_cases he : e.current_throttled = p.trafficThrottled
        · rw [if_neg (not_not_intro he)]
          simp [he]
        · rw [if_pos he]
          simp [he]
    · intro hL
      rw [cycle_ledger_eq]
      rcases hc : lookupA st.cached ip with _ | c
      · rw [hc] at hfold
        simp only [Option.map_none'] at hfold
        rw [hL, update_first] at hfold
        exact hfold
      · obtain ⟨e2, hl2, _⟩ := hinv ip c hc
        rw [hL] at hl2
        cases hl2
    · intro e hL hne
      refine ⟨?_, update_flag _ _ _ _ _⟩
      rw [cycle_ledger_eq]
      rcases hc : lookupA st.cached ip with _ | c
      · rw [hc] at hfold
        simp only [Option.map_none'] at hfold
        rw [hL] at hfold
        exact hfold
      · obtain ⟨e2, hl2, hfl⟩ := hinv ip c hc
        rw [hL, Option.some.injEq] at hl2
        subst hl2
        rw [hc] at hfold
        simp only [Option.map_some'] at hfold
        rw [if_pos (fun hcc => hne (hfl.trans hcc))] at hfold
        rw [hL] at hfold
        exact hfold
    · intro e hL heq
      rw [cycle_ledger_eq]
      rcases hc : lookupA st.cached ip with _ | c
      · rw [hc] at hfold
        simp only [Option.map_none'] at hfold
        rw [hL, update_noChange e ip p.server_name p.trafficThrottled now heq]
          at hfold
        exact ⟨nameFix e p.server_name, hfold, by simp, by simp, by simp, by simp,
          by simp, by simp⟩
      · obtain ⟨e2, hl2, hfl⟩ := hinv ip c hc
        rw [hL, Option.some.injEq] at hl2
        subst hl2
        rw [hc] at hfold
        simp only [Option.map_some'] at hfold
        rw [if_neg (not_not_intro (hfl.symm.trans heq))] at hfold
        rw [hL] at hfold
        exact ⟨e, hfold, rfl, rfl, rfl, rfl, rfl, rfl⟩
  · intro ip p hcac
    exact cycle_flag_sync st nd now oc hnd hinv ip p (mem_of_lookupA hcac)

/-- Witness for C1: a fresh observation over an empty monitor state — the
resource has no ledger entry, so the cycle creates the baseline entry
recording the observed flag. -/
theorem C1_transition_classification_witness :
    lookupA (update_cached_data ⟨[], [], 0, [], []⟩
        [("10.0.0.1", ⟨true, "ONLINE", "srv", "v1", 0, 0⟩)] 5 (fun _ => true)).ledger
      "10.0.0.1" = some (initEntry "srv" true) :=
  (((C1_transition_classification ⟨[], [], 0, [], []⟩
      [("10.0.0.1", ⟨true, "ONLINE", "srv", "v1", 0, 0⟩)] 5 (fun _ => true)
      (by decide)
      (fun ip p h => by simp [lookupA] at h)).1
    "10.0.0.1" ⟨true, "ONLINE", "srv", "v1", 0, 0⟩
    (List.mem_cons_self _ _)).2.2.2.1) rfl

/-- C5 (confirmed): the ledger outcome of a cycle — entries and their
events, the save count and the notification log — is identical whatever the
downstream enable/disable outcomes are (a failing downstream call is caught
by the driver and only logged), the recorded `current_throttled` is always
synchronized to the freshly observed value, and repeating the same
observation set in a following cycle is a complete no-op on the monitor
state, so a repeatedly failing downstream call never causes the same event
or notification to be re-emitted on later cycles. -/
theorem C5_failure_does_not_block_ledger (st : MonitorState)
    (nd : List (String × Payload)) (now now2 : Nat) (oc oc2 oc3 : String → Bool)
    (hnd : keysNodup nd) (hinv : CacheLedgerAgree st) :
    ((update_cached_data st nd now oc).ledger =
        (update_cached_data st nd now oc2).ledger ∧
      (update_cached_data st nd now oc).saves =
        (update_cached_data st nd now oc2).saves ∧
      (update_cached_data st nd now oc).notes =
        (update_cached_data st nd now oc2).notes) ∧
    (∀ ip p, (ip, p) ∈ nd →
      ∃ e, lookupA (update_cached_data st nd now oc).ledger ip = some e ∧
        e.current_throttled = p.trafficThrottled) ∧
    update_cached_data (update_cached_data st nd now oc) nd now2 oc3 =
      update_cached_data st nd now oc := by
  refine ⟨?_, cycle_flag_sync st nd now oc hnd hinv, ?_⟩
  · obtain ⟨h1, h2, h3, h4⟩ :=
      fold_outcome_agree nd st st now oc oc2 rfl rfl rfl rfl
    exact ⟨h2, h3, h4⟩
  · have hskip := fold_skip nd (update_cached_data st nd now oc) now2 oc3
      (fun kp hkp => by
        rw [show (update_cached_data st nd now oc).cached = nd from rfl,
          lookupA_of_mem_nodup hkp hnd]
        rfl)
    show { nd.foldl (fun s kp => process_resource s now2 (oc3 kp.1) kp.1 kp.2)
        (update_cached_data st nd now oc) with cached := nd } =
      update_cached_data st nd now oc
    rw [hskip]
    rfl

/-- Witness for C5: a throttling transition whose downstream call fails is
followed by a repeat cycle that is a complete no-op — nothing is
re-emitted. -/
theorem C5_failure_does_not_block_ledger_witness :
    update_cached_data (update_cached_data
        ⟨[("10.0.0.1", ⟨false, "ONLINE", "srv", "v1", 0, 0⟩)],
         [("10.0.0.1", initEntry "srv" false)], 0, [], []⟩
        [("10.0.0.1", ⟨true, "ONLINE", "srv", "v1", 0, 0⟩)] 5 (fun _ => false))
        [("10.0.0.1", ⟨true, "ONLINE", "srv", "v1", 0, 0⟩)] 9 (fun _ => false) =
      update_cached_data
        ⟨[("10.0.0.1", ⟨false, "ONLINE", "srv", "v1", 0, 0⟩)],
         [("10.0.0.1", initEntry "srv" false)], 0, [], []⟩
        [("10.0.0.1", ⟨true, "ONLINE", "srv", "v1", 0, 0⟩)] 5 (fun _ => false) :=
  (C5_failure_does_not_block_ledger
    ⟨[("10.0.0.1", ⟨false, "ONLINE", "srv", "v1", 0, 0⟩)],
     [("10.0.0.1", initEntry "srv" false)], 0, [], []⟩
    [("10.0.0.1", ⟨true, "ONLINE", "srv", "v1", 0, 0⟩)] 5 9
    (fun _ => false) (fun _ => true) (fun _ => false) (by decide)
    (by
      intro ip p h
      simp only [lookupA] at h
      split at h
      next heq =>
        cases h
        exact ⟨initEntry "srv" false, by simp [lookupA, heq], rfl⟩
      next => cases h)).2.2
